import Mathlib

/-! Radar display controller (`raspberry_pi_radar/static/scripts.js`).

A shallow embedding of the browser script that polls a distance sensor and
paints its readings on a circular radar display.

* Numbers that take part in the drawing arithmetic live in an ordered field
  `α`; the theorems about trigonometry instantiate it with `ℝ` and the exact
  `Real.pi`, `Real.cos`, `Real.sin`.
* The 2D context is a paint log: every drawing call appends one `DrawOp`.
* `setTimeout` appends a `Timer` to the list of pending timers; the timers
  fire at their due time, earliest first.
* `$.ajax` appends a `Request` to the log of requests sent; its two callbacks
  are separate functions applied to the state in which the response arrives.
-/

namespace Radar

/-! ## Numbers and the canvas -/

/-- The members of JavaScript's `Math` object that the script uses. -/
structure JsMath (α : Type) where
  PI : α
  cos : α → α
  sin : α → α

/-- The `radar` canvas element: only its bitmap size is read. -/
structure RadarCanvas (α : Type) where
  width : α
  height : α

/-- A pair of canvas coordinates, `{ x, y }`. -/
structure Point (α : Type) where
  x : α
  y : α
deriving DecidableEq

/-- One completed drawing call on the 2D context, with the style that was in
force when it was issued. An `arc` path that is filled or stroked is recorded
as one operation. -/
inductive DrawOp (α : Type) where
  | clearRect (x y w h : α)
  | fillRect (fillStyle : String) (x y w h : α)
  | strokeArc (strokeStyle : String) (x y r startAngle endAngle : α)
  | fillArc (fillStyle : String) (x y r startAngle endAngle : α)
  | fillText (fillStyle font text : String) (x y : α)
deriving DecidableEq

/-- The `distance` field of a response: a number or the sentinel `'Error'`. -/
inductive Distance (α : Type) where
  | error
  | num (d : α)
deriving DecidableEq

/-- The JSON body of a `/scan` response. -/
structure ScanData (α : Type) where
  distance : Distance α
  angle : α

section Drawing

variable {α : Type} [LinearOrderedField α]

/-- Line 4: `const radius = radarCanvas.width / 2`. -/
def radius (radarCanvas : RadarCanvas α) : α := radarCanvas.width / 2

/-- Line 5: `const center = { x: radius, y: radius }`. -/
def center (radarCanvas : RadarCanvas α) : Point α :=
  { x := radius radarCanvas, y := radius radarCanvas }

/-- Lines 87-94: black fill of the whole bitmap, then the green circle. -/
def drawRadarBackground (M : JsMath α) (radarCanvas : RadarCanvas α)
    (ctx : List (DrawOp α)) : List (DrawOp α) :=
  ctx ++ [DrawOp.fillRect "black" 0 0 radarCanvas.width radarCanvas.height,
          DrawOp.strokeArc "green" (center radarCanvas).x (center radarCanvas).y
            (radius radarCanvas) 0 (2 * M.PI)]

/-- An entry of the `points` table of `drawOrientationPoints`. -/
structure OrientationPoint (α : Type) where
  angle : α
  label : String

/-- Lines 98-103: the `points` table. -/
def orientationPoints : List (OrientationPoint α) :=
  [{ angle := 0, label := "E" }, { angle := 90, label := "N" },
   { angle := 180, label := "W" }, { angle := 270, label := "S" }]

/-- Lines 105-108: where the marker dot of one table entry is centred. -/
def orientationXY (M : JsMath α) (radarCanvas : RadarCanvas α)
    (point : OrientationPoint α) : Point α :=
  let angleRad := point.angle * M.PI / 180
  let labelOffset : α := 20
  { x := (center radarCanvas).x + (radius radarCanvas + labelOffset) * M.cos angleRad,
    y := (center radarCanvas).y - (radius radarCanvas + labelOffset) * M.sin angleRad }

/-- Lines 104-115: for each table entry, a lime dot of radius 5 and its label. -/
def drawOrientationPoints (M : JsMath α) (radarCanvas : RadarCanvas α)
    (ctx : List (DrawOp α)) : List (DrawOp α) :=
  orientationPoints.foldl
    (fun c point =>
      let p := orientationXY M radarCanvas point
      c ++ [DrawOp.fillArc "lime" p.x p.y 5 0 (2 * M.PI),
            DrawOp.fillText "lime" "16px Arial" point.label (p.x - 10) (p.y + 10)])
    ctx

/-- Lines 120-123: the canvas position of a reading with a numeric distance. -/
def detectedXY (M : JsMath α) (radarCanvas : RadarCanvas α) (maxDetectionDistance : α)
    (distance angle : α) : Point α :=
  let angleRad := (90 - angle) * M.PI / 180
  let scaledDistance := distance / maxDetectionDistance * radius radarCanvas
  { x := (center radarCanvas).x + scaledDistance * M.cos angleRad,
    y := (center radarCanvas).y - scaledDistance * M.sin angleRad }

/-- Lines 119-128: a red dot of radius 5 at the position of the reading. It is
only ever called with a numeric distance (the guard of `drawRadar`). -/
def drawDetectedPoint (M : JsMath α) (radarCanvas : RadarCanvas α) (maxDetectionDistance : α)
    (distance angle : α) (ctx : List (DrawOp α)) : List (DrawOp α) :=
  let p := detectedXY M radarCanvas maxDetectionDistance distance angle
  ctx ++ [DrawOp.fillArc "red" p.x p.y 5 0 (2 * M.PI)]

/-- Lines 77-84: clear, background, markers, and the point when it is a number
no larger than `maxDetectionDistance`. -/
def drawRadar (M : JsMath α) (radarCanvas : RadarCanvas α) (maxDetectionDistance : α)
    (data : ScanData α) (ctx : List (DrawOp α)) : List (DrawOp α) :=
  let c1 := ctx ++ [DrawOp.clearRect 0 0 radarCanvas.width radarCanvas.height]
  let c2 := drawRadarBackground M radarCanvas c1
  let c3 := drawOrientationPoints M radarCanvas c2
  match data.distance with
  | Distance.error => c3
  | Distance.num d =>
    if d ≤ maxDetectionDistance then
      drawDetectedPoint M radarCanvas maxDetectionDistance d data.angle c3
    else c3

/-- Whether a drawing call repaints every pixel of the bitmap: a `clearRect`
or `fillRect` over `(0, 0, width, height)`. -/
def coversCanvas (radarCanvas : RadarCanvas α) : DrawOp α → Bool
  | DrawOp.clearRect x y w h =>
    decide (x = 0 ∧ y = 0 ∧ w = radarCanvas.width ∧ h = radarCanvas.height)
  | DrawOp.fillRect _ x y w h =>
    decide (x = 0 ∧ y = 0 ∧ w = radarCanvas.width ∧ h = radarCanvas.height)
  | _ => false

/-- What the canvas shows after a paint log: the last call that repainted the
whole bitmap and everything drawn after it. -/
def shown (radarCanvas : RadarCanvas α) (ctx : List (DrawOp α)) : List (DrawOp α) :=
  ctx.foldl (fun acc op => if coversCanvas radarCanvas op then [op] else acc ++ [op]) []

/-- A detected point is a red filled dot (only `drawDetectedPoint` fills in red). -/
def isDetectedPoint : DrawOp α → Bool
  | DrawOp.fillArc fillStyle _ _ _ _ _ => fillStyle == "red"
  | _ => false

/-- A compass marker is a lime dot or a lime label (only `drawOrientationPoints`
draws in lime). -/
def isOrientationMark : DrawOp α → Bool
  | DrawOp.fillArc fillStyle _ _ _ _ _ => fillStyle == "lime"
  | DrawOp.fillText fillStyle _ _ _ _ => fillStyle == "lime"
  | _ => false

end Drawing

/-! ## Page state, timers and requests -/

section Page

variable {α : Type}

/-- The two kinds of function the script hands to `setTimeout`: the function
`continuousManualScan` itself (line 41) and the closure of `sweepRadar` that
captured one value of `angle` (lines 48-50). -/
inductive Callback where
  | continuousManualScan
  | sweepStep (angle : Nat)
deriving DecidableEq

/-- A pending timer: the time (ms) at which it is due and what it runs. -/
structure Timer where
  due : Nat
  callback : Callback
deriving DecidableEq

/-- One `POST /scan` sent by `updateRadar`: the JSON body `{angle, max_range}`,
plus the time it was sent and which function called `updateRadar`. -/
structure Request where
  time : Nat
  angle : Int
  max_range : Int
  caller : Callback
deriving DecidableEq

/-- The state of the page. `maxDetectionDistance` and `isScanning` are the two
variables of the script; `inputMaxRange` and `inputAngle` are what `parseInt`
reads from the two input fields (an integer: text that parses to `NaN` is not
modelled); `startScanText` and `status` are the texts of `#startScan` and
`#status`; `ctx` is the paint log of the canvas; `now`, `timers` and `requests`
are the clock, the pending timers and the requests sent so far. -/
structure State (α : Type) where
  maxDetectionDistance : Int
  isScanning : Bool
  inputMaxRange : Int
  inputAngle : Int
  startScanText : String
  status : String
  ctx : List (DrawOp α)
  now : Nat
  timers : List Timer
  requests : List Request

/-- The call `setTimeout(callback, delay)`. -/
def setTimeout (s : State α) (callback : Callback) (delay : Nat) : State α :=
  { s with timers := s.timers ++ [{ due := s.now + delay, callback := callback }] }

/-- Lines 55-60: `updateRadar(angle)` sends `{angle, max_range: maxDetectionDistance}`.
Its callbacks are `updateRadar_success` and `updateRadar_error`. -/
def updateRadar (s : State α) (angle : Int) (caller : Callback) : State α :=
  { s with requests := s.requests ++
      [{ time := s.now, angle := angle, max_range := s.maxDetectionDistance,
         caller := caller }] }

/-- Lines 61-68: the `success` callback of `updateRadar(angle)`. -/
def updateRadar_success [LinearOrderedField α] (M : JsMath α) (radarCanvas : RadarCanvas α) (s : State α)
    (angle : Int) (data : ScanData α) : State α :=
  match data.distance with
  | Distance.error => { s with status := "Error in scanning at angle " ++ toString angle }
  | Distance.num _ =>
    { s with
      status := "Scanning at angle " ++ toString angle ++ "°...",
      ctx := drawRadar M radarCanvas (s.maxDetectionDistance : α) data s.ctx }

/-- Lines 69-72: the `error` callback of `updateRadar` (the `console.error`
line writes to the console only, which is not part of `State`). -/
def updateRadar_error (s : State α) : State α :=
  { s with status := "Scan failed. Retrying..." }

/-- Lines 37-43. -/
def continuousManualScan (s : State α) : State α :=
  let angle := s.inputAngle
  if s.isScanning then
    setTimeout (updateRadar s angle Callback.continuousManualScan)
      Callback.continuousManualScan 1000
  else s

/-- Lines 25-34. -/
def toggleScanning (s : State α) : State α :=
  let s1 := { s with isScanning := !s.isScanning }
  if s1.isScanning then
    continuousManualScan { s1 with startScanText := "Stop Scan" }
  else
    { s1 with startScanText := "Start Scan", status := "Scan stopped." }

/-- Lines 47-51: the `for (let angle = ...; angle <= 180; angle += 15)` loop,
entered with the current value of `angle`. The delay `1000 * (angle / 15)` is
computed on a multiple of 15, where the quotient is exact. -/
def sweepLoop (s : State α) (angle : Nat) : State α :=
  if angle ≤ 180 then
    sweepLoop (setTimeout s (Callback.sweepStep angle) (1000 * (angle / 15))) (angle + 15)
  else s
termination_by 181 - angle

/-- Lines 46-52. -/
def sweepRadar (s : State α) : State α := sweepLoop s 0

/-- Lines 10-13: the click handler of `#setMaxRange`. -/
def setMaxRange_click [LinearOrderedField α] (M : JsMath α) (radarCanvas : RadarCanvas α) (s : State α) : State α :=
  let s1 := { s with maxDetectionDistance := s.inputMaxRange }
  { s1 with ctx := drawRadarBackground M radarCanvas s1.ctx }

/-- What a timer runs when it fires. -/
def runCallback (s : State α) : Callback → State α
  | Callback.continuousManualScan => continuousManualScan s
  | Callback.sweepStep angle => updateRadar s angle (Callback.sweepStep angle)

/-! ## The event loop -/

/-- The pending timer that fires next: the one due first, and among timers due
at the same time the one registered first. -/
def nextTimer : List Timer → Option Timer
  | [] => none
  | t :: ts =>
    match nextTimer ts with
    | none => some t
    | some u => if t.due ≤ u.due then some t else some u

/-- The next pending timer fires: the clock moves to its due time, the timer
is removed from the pending ones and its callback runs. -/
def fireNext (s : State α) : State α :=
  match nextTimer s.timers with
  | none => s
  | some t => runCallback { s with now := max s.now t.due, timers := s.timers.erase t } t.callback

/-- What can happen to the page: the operator clicks `#startScan` or
`#startSweep` some milliseconds after the previous event, or the next timer
fires. -/
inductive Event where
  | clickStartScan (after : Nat)
  | clickStartSweep (after : Nat)
  | timerFires
deriving DecidableEq

/-- One event. -/
def step (s : State α) : Event → State α
  | Event.clickStartScan dt => toggleScanning { s with now := s.now + dt }
  | Event.clickStartSweep dt => sweepRadar { s with now := s.now + dt }
  | Event.timerFires => fireNext s

/-- A sequence of events. -/
def run (s : State α) (evs : List Event) : State α := evs.foldl step s

/-- No pending timer is overdue. -/
def onTime (s : State α) : Bool := s.timers.all (fun t => decide (s.now ≤ t.due))

/-- The pending `continuousManualScan` timers. -/
def manualTimers (s : State α) : List Timer :=
  s.timers.filter (fun t => decide (t.callback = Callback.continuousManualScan))

/-- The requests sent by `continuousManualScan`. -/
def manualRequests (s : State α) : List Request :=
  s.requests.filter (fun r => decide (r.caller = Callback.continuousManualScan))

/-- An event comes in time order when no timer is due before it: a click
happens no later than the earliest pending timer (which would otherwise have
fired first). -/
def inTimeOrder (s : State α) : Event → Bool
  | Event.clickStartScan dt => s.timers.all (fun t => decide (s.now + dt ≤ t.due))
  | Event.clickStartSweep dt => s.timers.all (fun t => decide (s.now + dt ≤ t.due))
  | Event.timerFires => true

/-- Every event of the sequence comes in time order. -/
def timeOrdered (s : State α) : List Event → Bool
  | [] => true
  | ev :: evs => inTimeOrder s ev && timeOrdered (step s ev) evs

/-- Scanning is switched on by this event while a `continuousManualScan` timer
of an earlier scan is still pending. -/
def restartsOverPending (s : State α) : Event → Bool
  | Event.clickStartScan _ => !s.isScanning && !(manualTimers s).isEmpty
  | _ => false

/-- No event of the sequence switches scanning on over a pending
`continuousManualScan` timer. -/
def noRestartOverPending (s : State α) : List Event → Bool
  | [] => true
  | ev :: evs => !restartsOverPending s ev && noRestartOverPending (step s ev) evs

/-- The cadence invariant of the manual scan: no pending timer is overdue; while
scanning, exactly one `continuousManualScan` timer is pending and it is due
1000 ms after the latest request of `continuousManualScan`; while not scanning,
at most one such timer is pending. -/
def Cadence (s : State α) : Prop :=
  (∀ t ∈ s.timers, s.now ≤ t.due) ∧
  (s.isScanning = true →
    ∃ r, (manualRequests s).getLast? = some r ∧
      manualTimers s = [{ due := r.time + 1000, callback := Callback.continuousManualScan }]) ∧
  (manualTimers s).length ≤ 1

/-- Lines 6-7: the state when the ready handler has run. Nothing has been
drawn, scheduled or sent; the DOM texts are those of the page. -/
def pageLoad (inputMaxRange inputAngle : Int) (startScanText status : String) : State α :=
  { maxDetectionDistance := 80, isScanning := false,
    inputMaxRange := inputMaxRange, inputAngle := inputAngle,
    startScanText := startScanText, status := status,
    ctx := [], now := 0, timers := [], requests := [] }

end Page

/-! ## Shared lemmas on the drawing functions -/

section DrawingLemmas

variable {α : Type} [LinearOrderedField α]

theorem shown_append (radarCanvas : RadarCanvas α) (c1 c2 : List (DrawOp α)) :
    shown radarCanvas (c1 ++ c2) =
      c2.foldl (fun acc op => if coversCanvas radarCanvas op then [op] else acc ++ [op])
        (shown radarCanvas c1) := by
  simp [shown, List.foldl_append]

theorem drawOrientationPoints_eq (M : JsMath α) (radarCanvas : RadarCanvas α)
    (ctx : List (DrawOp α)) :
    drawOrientationPoints M radarCanvas ctx =
      ctx ++ (orientationPoints.flatMap fun point =>
        [DrawOp.fillArc "lime" (orientationXY M radarCanvas point).x
            (orientationXY M radarCanvas point).y 5 0 (2 * M.PI),
         DrawOp.fillText "lime" "16px Arial" point.label
            ((orientationXY M radarCanvas point).x - 10)
            ((orientationXY M radarCanvas point).y + 10)]) := by
  simp [drawOrientationPoints, orientationPoints]

/-- The frame that `drawRadar` paints before it looks at the reading. -/
theorem shown_frame (M : JsMath α) (radarCanvas : RadarCanvas α) (ctx : List (DrawOp α)) :
    shown radarCanvas
        (drawOrientationPoints M radarCanvas (drawRadarBackground M radarCanvas
          (ctx ++ [DrawOp.clearRect 0 0 radarCanvas.width radarCanvas.height]))) =
      drawOrientationPoints M radarCanvas (drawRadarBackground M radarCanvas []) := by
  simp [drawOrientationPoints_eq, drawRadarBackground, orientationPoints, shown_append,
    coversCanvas]

theorem frame_no_detectedPoint (M : JsMath α) (radarCanvas : RadarCanvas α) :
    ∀ op ∈ drawOrientationPoints M radarCanvas (drawRadarBackground M radarCanvas []),
      isDetectedPoint op = false := by
  simp [drawOrientationPoints_eq, drawRadarBackground, orientationPoints, isDetectedPoint]

theorem shown_drawRadar_in_range (M : JsMath α) (radarCanvas : RadarCanvas α)
    (ctx : List (DrawOp α)) (d angle m : α) (h : d ≤ m) :
    shown radarCanvas (drawRadar M radarCanvas m ⟨Distance.num d, angle⟩ ctx)
      = drawOrientationPoints M radarCanvas (drawRadarBackground M radarCanvas [])
        ++ [DrawOp.fillArc "red" (detectedXY M radarCanvas m d angle).x
              (detectedXY M radarCanvas m d angle).y 5 0 (2 * M.PI)] := by
  simp only [drawRadar, h, if_true, drawDetectedPoint]
  rw [shown_append, shown_frame]
  simp [coversCanvas]

theorem shown_drawRadar_out_of_range (M : JsMath α) (radarCanvas : RadarCanvas α)
    (ctx : List (DrawOp α)) (d angle m : α) (h : m < d) :
    shown radarCanvas (drawRadar M radarCanvas m ⟨Distance.num d, angle⟩ ctx)
      = drawOrientationPoints M radarCanvas (drawRadarBackground M radarCanvas []) := by
  simp only [drawRadar, not_le.mpr h, if_false]
  rw [shown_frame]

theorem shown_drawRadarBackground (M : JsMath α) (radarCanvas : RadarCanvas α)
    (ctx : List (DrawOp α)) :
    shown radarCanvas (drawRadarBackground M radarCanvas ctx)
      = drawRadarBackground M radarCanvas [] := by
  simp [drawRadarBackground, shown_append, coversCanvas]

end DrawingLemmas

/-! ## Coordinate mapping (C1) -/

/-- C1, as stated, fails: on a 200 x 200 canvas (radius 100, centre (100, 100))
with `maxDetectionDistance = 80`, the reading `{distance: 40, angle: 90}` has
scaled offset 50 > 0 and is plotted at (150, 100), due East of the centre and
not at (100, 50) straight above it; and the reading `{distance: 40, angle: 0}`
is plotted at (100, 50), straight above the centre and not due East of it. -/
theorem C1_counterexample :
    (0 : ℝ) < 40 / 80 * radius (⟨200, 200⟩ : RadarCanvas ℝ) ∧
    detectedXY (⟨Real.pi, Real.cos, Real.sin⟩ : JsMath ℝ) ⟨200, 200⟩ 80 40 90
      = ⟨150, 100⟩ ∧
    detectedXY (⟨Real.pi, Real.cos, Real.sin⟩ : JsMath ℝ) ⟨200, 200⟩ 80 40 90
      ≠ ⟨(center (⟨200, 200⟩ : RadarCanvas ℝ)).x,
         (center (⟨200, 200⟩ : RadarCanvas ℝ)).y - radius (⟨200, 200⟩ : RadarCanvas ℝ) / 2⟩ ∧
    detectedXY (⟨Real.pi, Real.cos, Real.sin⟩ : JsMath ℝ) ⟨200, 200⟩ 80 40 0
      = ⟨100, 50⟩ ∧
    detectedXY (⟨Real.pi, Real.cos, Real.sin⟩ : JsMath ℝ) ⟨200, 200⟩ 80 40 0
      ≠ ⟨(center (⟨200, 200⟩ : RadarCanvas ℝ)).x
           + 40 / 80 * radius (⟨200, 200⟩ : RadarCanvas ℝ),
         (center (⟨200, 200⟩ : RadarCanvas ℝ)).y⟩ := by
  have h90 : ((90 : ℝ) - 0) * Real.pi / 180 = Real.pi / 2 := by ring
  refine ⟨by norm_num [radius], ?_, ?_, ?_, ?_⟩
  · norm_num [detectedXY, center, radius]
  · norm_num [detectedXY, center, radius]
  · simp only [detectedXY, center, radius, h90, Real.cos_pi_div_two, Real.sin_pi_div_two]
    norm_num
  · simp only [detectedXY, center, radius, h90, Real.cos_pi_div_two, Real.sin_pi_div_two]
    norm_num

/-- C1, amended: for every reading whose scaled radial offset
`s = distance / maxDetectionDistance * radius` is positive, a reading at angle
90 is plotted due East (right) of the centre, at `(center.x + s, center.y)`,
and a reading at angle 0 is plotted straight up from the centre, at
`(center.x, center.y - s)`; `drawDetectedPoint` paints the red dot of radius 5
there. In particular, with `maxDetectionDistance = 80` the reading
`{distance: 40, angle: 90}` is plotted at `(center.x + radius / 2, center.y)`. -/
theorem C1_detected_point_mapping (radarCanvas : RadarCanvas ℝ) (m d : ℝ)
    (ctx : List (DrawOp ℝ)) (hs : 0 < d / m * radius radarCanvas) :
    detectedXY (⟨Real.pi, Real.cos, Real.sin⟩ : JsMath ℝ) radarCanvas m d 90
      = ⟨(center radarCanvas).x + d / m * radius radarCanvas, (center radarCanvas).y⟩ ∧
    (center radarCanvas).x
      < (detectedXY (⟨Real.pi, Real.cos, Real.sin⟩ : JsMath ℝ) radarCanvas m d 90).x ∧
    detectedXY (⟨Real.pi, Real.cos, Real.sin⟩ : JsMath ℝ) radarCanvas m d 0
      = ⟨(center radarCanvas).x, (center radarCanvas).y - d / m * radius radarCanvas⟩ ∧
    (detectedXY (⟨Real.pi, Real.cos, Real.sin⟩ : JsMath ℝ) radarCanvas m d 0).y
      < (center radarCanvas).y ∧
    drawDetectedPoint (⟨Real.pi, Real.cos, Real.sin⟩ : JsMath ℝ) radarCanvas m d 90 ctx
      = ctx ++ [DrawOp.fillArc "red" ((center radarCanvas).x + d / m * radius radarCanvas)
                  (center radarCanvas).y 5 0 (2 * Real.pi)] ∧
    drawDetectedPoint (⟨Real.pi, Real.cos, Real.sin⟩ : JsMath ℝ) radarCanvas m d 0 ctx
      = ctx ++ [DrawOp.fillArc "red" (center radarCanvas).x
                  ((center radarCanvas).y - d / m * radius radarCanvas) 5 0 (2 * Real.pi)] ∧
    detectedXY (⟨Real.pi, Real.cos, Real.sin⟩ : JsMath ℝ) radarCanvas 80 40 90
      = ⟨(center radarCanvas).x + radius radarCanvas / 2, (center radarCanvas).y⟩ := by
  have h90 : ((90 : ℝ) - 0) * Real.pi / 180 = Real.pi / 2 := by ring
  have e90 : detectedXY (⟨Real.pi, Real.cos, Real.sin⟩ : JsMath ℝ) radarCanvas m d 90
      = ⟨(center radarCanvas).x + d / m * radius radarCanvas, (center radarCanvas).y⟩ := by
    simp [detectedXY]
  have e0 : detectedXY (⟨Real.pi, Real.cos, Real.sin⟩ : JsMath ℝ) radarCanvas m d 0
      = ⟨(center radarCanvas).x, (center radarCanvas).y - d / m * radius radarCanvas⟩ := by
    simp only [detectedXY, h90, Real.cos_pi_div_two, Real.sin_pi_div_two]
    simp
  refine ⟨e90, ?_, e0, ?_, ?_, ?_, ?_⟩
  · rw [e90]; simpa using hs
  · rw [e0]; simpa using hs
  · simp only [drawDetectedPoint, e90]
  · simp only [drawDetectedPoint, e0]
  · simp [detectedXY]; ring

/-- C1, amended, at a positive offset: 200 x 200 canvas, range 80, distance 40. -/
theorem C1_detected_point_mapping_witness :
    (0 : ℝ) < 40 / 80 * radius (⟨200, 200⟩ : RadarCanvas ℝ) ∧
    detectedXY (⟨Real.pi, Real.cos, Real.sin⟩ : JsMath ℝ) ⟨200, 200⟩ 80 40 90
      = ⟨(center (⟨200, 200⟩ : RadarCanvas ℝ)).x
           + 40 / 80 * radius (⟨200, 200⟩ : RadarCanvas ℝ),
         (center (⟨200, 200⟩ : RadarCanvas ℝ)).y⟩ :=
  ⟨by norm_num [radius],
   (C1_detected_point_mapping ⟨200, 200⟩ 80 40 [] (by norm_num [radius])).1⟩

/-! ## Display filter and radial scaling (C2) -/

/-- C2: for a numeric distance `d` and `maxDetectionDistance = m > 0`, the frame
that `drawRadar` leaves on the canvas shows a detected point if and only if
`d ≤ m`. When `d ≤ m` the red dot is painted last, at
`centre + (d / m * radius) * (cos t, -sin t)` for the canvas angle
`t = (90 - angle) * π / 180`, so its offset along that direction is exactly
`d / m * radius` (its distance from the centre squares to the square of that
offset), and for `0 ≤ d ≤ m` on a canvas of non-negative width its distance
from the centre is `d / m * radius`, which lies between 0 and `radius`. When `m < d` the frame is the background and the
markers, without a detected point. -/
theorem C2_display_filter (radarCanvas : RadarCanvas ℝ) (ctx : List (DrawOp ℝ))
    (d angle m : ℝ) (hm : 0 < m) :
    ((∃ op ∈ shown radarCanvas
          (drawRadar (⟨Real.pi, Real.cos, Real.sin⟩ : JsMath ℝ) radarCanvas m
            ⟨Distance.num d, angle⟩ ctx),
        isDetectedPoint op = true) ↔ d ≤ m) ∧
    (d ≤ m →
      shown radarCanvas
          (drawRadar (⟨Real.pi, Real.cos, Real.sin⟩ : JsMath ℝ) radarCanvas m
            ⟨Distance.num d, angle⟩ ctx)
        = drawOrientationPoints ⟨Real.pi, Real.cos, Real.sin⟩ radarCanvas
            (drawRadarBackground ⟨Real.pi, Real.cos, Real.sin⟩ radarCanvas [])
          ++ [DrawOp.fillArc "red"
                ((center radarCanvas).x
                  + d / m * radius radarCanvas * Real.cos ((90 - angle) * Real.pi / 180))
                ((center radarCanvas).y
                  - d / m * radius radarCanvas * Real.sin ((90 - angle) * Real.pi / 180))
                5 0 (2 * Real.pi)]) ∧
    (((center radarCanvas).x
          + d / m * radius radarCanvas * Real.cos ((90 - angle) * Real.pi / 180)
          - (center radarCanvas).x) ^ 2
      + ((center radarCanvas).y
          - d / m * radius radarCanvas * Real.sin ((90 - angle) * Real.pi / 180)
          - (center radarCanvas).y) ^ 2
      = (d / m * radius radarCanvas) ^ 2) ∧
    (0 ≤ radarCanvas.width → 0 ≤ d → d ≤ m →
      Real.sqrt
          (((center radarCanvas).x
              + d / m * radius radarCanvas * Real.cos ((90 - angle) * Real.pi / 180)
              - (center radarCanvas).x) ^ 2
          + ((center radarCanvas).y
              - d / m * radius radarCanvas * Real.sin ((90 - angle) * Real.pi / 180)
              - (center radarCanvas).y) ^ 2)
        = d / m * radius radarCanvas ∧
      0 ≤ d / m * radius radarCanvas ∧ d / m * radius radarCanvas ≤ radius radarCanvas) ∧
    (m < d →
      shown radarCanvas
          (drawRadar (⟨Real.pi, Real.cos, Real.sin⟩ : JsMath ℝ) radarCanvas m
            ⟨Distance.num d, angle⟩ ctx)
        = drawOrientationPoints ⟨Real.pi, Real.cos, Real.sin⟩ radarCanvas
            (drawRadarBackground ⟨Real.pi, Real.cos, Real.sin⟩ radarCanvas []) ∧
      ∀ op ∈ shown radarCanvas
          (drawRadar (⟨Real.pi, Real.cos, Real.sin⟩ : JsMath ℝ) radarCanvas m
            ⟨Distance.num d, angle⟩ ctx),
        isDetectedPoint op = false) := by
  have hin : d ≤ m →
      shown radarCanvas
          (drawRadar (⟨Real.pi, Real.cos, Real.sin⟩ : JsMath ℝ) radarCanvas m
            ⟨Distance.num d, angle⟩ ctx)
        = drawOrientationPoints ⟨Real.pi, Real.cos, Real.sin⟩ radarCanvas
            (drawRadarBackground ⟨Real.pi, Real.cos, Real.sin⟩ radarCanvas [])
          ++ [DrawOp.fillArc "red"
                ((center radarCanvas).x
                  + d / m * radius radarCanvas * Real.cos ((90 - angle) * Real.pi / 180))
                ((center radarCanvas).y
                  - d / m * radius radarCanvas * Real.sin ((90 - angle) * Real.pi / 180))
                5 0 (2 * Real.pi)] := by
    intro h
    rw [shown_drawRadar_in_range _ _ _ _ _ _ h]
    simp only [detectedXY]
  have hout := shown_drawRadar_out_of_range (⟨Real.pi, Real.cos, Real.sin⟩ : JsMath ℝ)
    radarCanvas ctx d angle m
  have hsq : ((center radarCanvas).x
          + d / m * radius radarCanvas * Real.cos ((90 - angle) * Real.pi / 180)
          - (center radarCanvas).x) ^ 2
      + ((center radarCanvas).y
          - d / m * radius radarCanvas * Real.sin ((90 - angle) * Real.pi / 180)
          - (center radarCanvas).y) ^ 2
      = (d / m * radius radarCanvas) ^ 2 := by
    have hcs := Real.cos_sq_add_sin_sq ((90 - angle) * Real.pi / 180)
    linear_combination (d / m * radius radarCanvas) ^ 2 * hcs
  refine ⟨?_, hin, hsq, ?_, ?_⟩
  · constructor
    · rintro ⟨op, hop, hred⟩
      by_contra hlt
      rw [hout (not_le.mp hlt)] at hop
      rw [frame_no_detectedPoint _ _ op hop] at hred
      exact Bool.false_ne_true hred
    · intro h
      rw [hin h]
      exact ⟨_, List.mem_append_right _ (List.mem_singleton_self _), rfl⟩
  · intro hw hd hdm
    have hr : 0 ≤ radius radarCanvas := by unfold radius; linarith
    have h0 : 0 ≤ d / m := div_nonneg hd hm.le
    have h1 : d / m ≤ 1 := (div_le_one hm).mpr hdm
    exact ⟨by rw [hsq]; exact Real.sqrt_sq (mul_nonneg h0 hr), mul_nonneg h0 hr, by nlinarith⟩
  · intro h
    refine ⟨hout h, ?_⟩
    rw [hout h]
    exact frame_no_detectedPoint _ _

/-- C2 at range 80 on a 200 x 200 canvas, for the reading `{distance: 40, angle: 90}`. -/
theorem C2_display_filter_witness :
    (0 : ℝ) < 80 ∧
    ((∃ op ∈ shown (⟨200, 200⟩ : RadarCanvas ℝ)
          (drawRadar (⟨Real.pi, Real.cos, Real.sin⟩ : JsMath ℝ) ⟨200, 200⟩ 80
            ⟨Distance.num 40, 90⟩ []),
        isDetectedPoint op = true) ↔ (40 : ℝ) ≤ 80) :=
  ⟨by norm_num, (C2_display_filter ⟨200, 200⟩ [] 40 90 80 (by norm_num)).1⟩

/-! ## Orientation markers (C10) -/

/-- C10: for every `radius > 0`, on a square canvas of side `2 * radius` (so
that the centre is `(radius, radius)`), `drawOrientationPoints` centres its four
marker dots E, N, W, S at `(2 * radius + 20, radius)`, `(radius, -20)`,
`(-20, radius)` and `(radius, 2 * radius + 20)`, each at distance `radius + 20`
from the centre, and no point within 5 pixels of one of these centres lies in
the canvas rectangle `[0, 2 * radius] x [0, 2 * radius]`. -/
theorem C10_markers_outside_canvas (r : ℝ) (hr : 0 < r) (ctx : List (DrawOp ℝ)) :
    center (⟨2 * r, 2 * r⟩ : RadarCanvas ℝ) = ⟨r, r⟩ ∧
    orientationPoints.map
        (orientationXY (⟨Real.pi, Real.cos, Real.sin⟩ : JsMath ℝ) ⟨2 * r, 2 * r⟩)
      = [⟨2 * r + 20, r⟩, ⟨r, -20⟩, ⟨-20, r⟩, ⟨r, 2 * r + 20⟩] ∧
    drawOrientationPoints (⟨Real.pi, Real.cos, Real.sin⟩ : JsMath ℝ) ⟨2 * r, 2 * r⟩ ctx
      = ctx ++
        [DrawOp.fillArc "lime" (2 * r + 20) r 5 0 (2 * Real.pi),
         DrawOp.fillText "lime" "16px Arial" "E" (2 * r + 20 - 10) (r + 10),
         DrawOp.fillArc "lime" r (-20) 5 0 (2 * Real.pi),
         DrawOp.fillText "lime" "16px Arial" "N" (r - 10) (-20 + 10),
         DrawOp.fillArc "lime" (-20) r 5 0 (2 * Real.pi),
         DrawOp.fillText "lime" "16px Arial" "W" (-20 - 10) (r + 10),
         DrawOp.fillArc "lime" r (2 * r + 20) 5 0 (2 * Real.pi),
         DrawOp.fillText "lime" "16px Arial" "S" (r - 10) (2 * r + 20 + 10)] ∧
    (∀ p ∈ orientationPoints.map
        (orientationXY (⟨Real.pi, Real.cos, Real.sin⟩ : JsMath ℝ) ⟨2 * r, 2 * r⟩),
      Real.sqrt ((p.x - r) ^ 2 + (p.y - r) ^ 2) = r + 20 ∧
      ∀ x y : ℝ, (x - p.x) ^ 2 + (y - p.y) ^ 2 ≤ 5 ^ 2 →
        ¬ (0 ≤ x ∧ x ≤ 2 * r ∧ 0 ≤ y ∧ y ≤ 2 * r)) := by
  have a0 : (0 : ℝ) * Real.pi / 180 = 0 := by ring
  have a90 : (90 : ℝ) * Real.pi / 180 = Real.pi / 2 := by ring
  have a180 : (180 : ℝ) * Real.pi / 180 = Real.pi := by ring
  have a270 : (270 : ℝ) * Real.pi / 180 = Real.pi / 2 + Real.pi := by ring
  have hxy : orientationPoints.map
        (orientationXY (⟨Real.pi, Real.cos, Real.sin⟩ : JsMath ℝ) ⟨2 * r, 2 * r⟩)
      = [⟨2 * r + 20, r⟩, ⟨r, -20⟩, ⟨-20, r⟩, ⟨r, 2 * r + 20⟩] := by
    simp only [orientationPoints, orientationXY, center, radius, List.map, a0, a90, a180,
      a270, Real.cos_zero, Real.sin_zero, Real.cos_pi_div_two, Real.sin_pi_div_two,
      Real.cos_pi, Real.sin_pi, Real.cos_add_pi, Real.sin_add_pi]
    norm_num
    refine ⟨by ring, by ring⟩
  refine ⟨by simp [center, radius], hxy, ?_, ?_⟩
  · simp only [List.map, orientationPoints, List.cons.injEq, and_true] at hxy
    obtain ⟨h1, h2, h3, h4⟩ := hxy
    simp only [drawOrientationPoints_eq, orientationPoints, List.flatMap_cons,
      List.flatMap_nil, h1, h2, h3, h4]
    simp
  · rw [hxy]
    intro p hp
    simp only [List.mem_cons, List.mem_singleton, List.not_mem_nil, or_false] at hp
    rcases hp with rfl | rfl | rfl | rfl
    · refine ⟨?_, ?_⟩
      · rw [show ((2 * r + 20 - r) ^ 2 + (r - r) ^ 2 : ℝ) = (r + 20) ^ 2 by ring]
        exact Real.sqrt_sq (by linarith)
      rintro x y h ⟨_, hx, _, _⟩
      simp only at h
      nlinarith [sq_nonneg (y - r), sq_nonneg (2 * r - x)]
    · refine ⟨?_, ?_⟩
      · rw [show ((r - r) ^ 2 + (-20 - r) ^ 2 : ℝ) = (r + 20) ^ 2 by ring]
        exact Real.sqrt_sq (by linarith)
      rintro x y h ⟨_, _, hy, _⟩
      simp only at h
      nlinarith [sq_nonneg (x - r), sq_nonneg y]
    · refine ⟨?_, ?_⟩
      · rw [show ((-20 - r) ^ 2 + (r - r) ^ 2 : ℝ) = (r + 20) ^ 2 by ring]
        exact Real.sqrt_sq (by linarith)
      rintro x y h ⟨hx, _, _, _⟩
      simp only at h
      nlinarith [sq_nonneg (y - r), sq_nonneg x]
    · refine ⟨?_, ?_⟩
      · rw [show ((r - r) ^ 2 + (2 * r + 20 - r) ^ 2 : ℝ) = (r + 20) ^ 2 by ring]
        exact Real.sqrt_sq (by linarith)
      rintro x y h ⟨_, _, _, hy⟩
      simp only at h
      nlinarith [sq_nonneg (x - r), sq_nonneg (2 * r - y)]

/-- C10 on a canvas of side 200 (radius 100). -/
theorem C10_markers_outside_canvas_witness :
    (0 : ℝ) < 100 ∧
    orientationPoints.map
        (orientationXY (⟨Real.pi, Real.cos, Real.sin⟩ : JsMath ℝ) ⟨2 * 100, 2 * 100⟩)
      = [⟨2 * 100 + 20, 100⟩, ⟨100, -20⟩, ⟨-20, 100⟩, ⟨100, 2 * 100 + 20⟩] :=
  ⟨by norm_num, (C10_markers_outside_canvas 100 (by norm_num) []).2.1⟩

/-! ## Shared lemmas on timers -/

section PageLemmas

variable {α : Type}

/-- The loop of `sweepRadar` runs 13 times and only adds timers. -/
theorem sweepRadar_eq (s : State α) :
    sweepRadar s =
      { s with timers := s.timers ++
          (List.range 13).map fun N =>
            { due := s.now + N * 1000, callback := Callback.sweepStep (15 * N) } } := by
  unfold sweepRadar
  iterate 14
    (rw [sweepLoop]
     simp only [setTimeout, Nat.reduceLeDiff, if_true, if_false, Nat.reduceAdd, Nat.reduceDiv,
       Nat.reduceMul, List.append_assoc, List.singleton_append, List.cons_append,
       List.nil_append])
  simp [List.range, List.range.loop]

theorem toggleScanning_timers_subset (s : State α) :
    ∀ t ∈ s.timers, t ∈ (toggleScanning s).timers := by
  intro t ht
  cases h : s.isScanning <;>
    simp [toggleScanning, continuousManualScan, setTimeout, updateRadar, h, ht]

theorem nextTimer_mem : ∀ (l : List Timer) (t : Timer), nextTimer l = some t → t ∈ l
  | [], t, h => by simp [nextTimer] at h
  | a :: l, t, h => by
    simp only [nextTimer] at h
    cases hn : nextTimer l with
    | none =>
      simp only [hn, Option.some.injEq] at h
      simp [h]
    | some u =>
      simp only [hn] at h
      split at h
      · simp only [Option.some.injEq] at h
        simp [h]
      · simp only [Option.some.injEq] at h
        subst h
        exact List.mem_cons_of_mem _ (nextTimer_mem l u hn)

theorem nextTimer_le : ∀ (l : List Timer) (t : Timer), nextTimer l = some t →
    ∀ u ∈ l, t.due ≤ u.due
  | [], t, h => by simp [nextTimer] at h
  | a :: l, t, h => by
    intro u hu
    simp only [nextTimer] at h
    cases hn : nextTimer l with
    | none =>
      simp only [hn, Option.some.injEq] at h
      subst h
      rcases List.mem_cons.mp hu with rfl | hu
      · exact le_rfl
      · cases l with
        | nil => simp at hu
        | cons b l =>
          exfalso
          simp only [nextTimer] at hn
          split at hn
          · simp at hn
          · split at hn <;> simp at hn
    | some v =>
      simp only [hn] at h
      have hv := nextTimer_le l v hn
      split at h
      · simp only [Option.some.injEq] at h
        subst h
        rcases List.mem_cons.mp hu with rfl | hu
        · exact le_rfl
        · exact le_trans (by assumption) (hv u hu)
      · simp only [Option.some.injEq] at h
        subst h
        rcases List.mem_cons.mp hu with rfl | hu
        · omega
        · exact hv u hu

theorem manualTimers_erase (s : State α) (t : Timer) (now : Nat) :
    manualTimers { s with now := now, timers := s.timers.erase t }
      = (manualTimers s).erase t := by
  simp only [manualTimers]
  rw [List.erase_filter]

theorem step_requests_subset (s : State α) (ev : Event) :
    ∀ r ∈ s.requests, r ∈ (step s ev).requests := by
  intro r hr
  cases ev with
  | clickStartScan dt =>
    cases h : s.isScanning <;>
      simp [step, toggleScanning, continuousManualScan, setTimeout, updateRadar, h, hr]
  | clickStartSweep dt =>
    simp only [step]
    rw [sweepRadar_eq]
    exact hr
  | timerFires =>
    simp only [step, fireNext]
    cases hn : nextTimer s.timers with
    | none => exact hr
    | some t =>
      cases hcb : t.callback with
      | sweepStep angle => simp [hcb, runCallback, updateRadar, hr]
      | continuousManualScan =>
        cases h : s.isScanning <;>
          simp [hcb, runCallback, continuousManualScan, setTimeout, updateRadar, h, hr]

/-- A pending sweep timer stays pending through any event, or the event is its
firing and its request has been sent, at or after its due time. -/
theorem step_sweep_timer (s : State α) (ev : Event) (t : Timer) (angle : Nat)
    (hcb : t.callback = Callback.sweepStep angle) (ht : t ∈ s.timers) :
    t ∈ (step s ev).timers ∨
      ∃ r ∈ (step s ev).requests,
        r.caller = Callback.sweepStep angle ∧ r.angle = (angle : Int) ∧ t.due ≤ r.time := by
  cases ev with
  | clickStartScan dt =>
    exact Or.inl (toggleScanning_timers_subset _ t ht)
  | clickStartSweep dt =>
    left
    simp only [step]
    rw [sweepRadar_eq]
    exact List.mem_append_left _ ht
  | timerFires =>
    simp only [step, fireNext]
    cases hn : nextTimer s.timers with
    | none => exact Or.inl ht
    | some u =>
      by_cases hut : u = t
      · right
        subst hut
        refine ⟨{ time := max s.now u.due, angle := (angle : Int),
                  max_range := s.maxDetectionDistance,
                  caller := Callback.sweepStep angle }, ?_, rfl, rfl, le_max_right _ _⟩
        simp [hcb, runCallback, updateRadar]
      · left
        have hmem : t ∈ s.timers.erase u := (List.mem_erase_of_ne (Ne.symm hut)).mpr ht
        cases hu : u.callback with
        | sweepStep b => simpa [hu, runCallback, updateRadar] using hmem
        | continuousManualScan =>
          cases h : s.isScanning <;>
            simp [hu, runCallback, continuousManualScan, setTimeout, updateRadar, h, hmem]

/-- Whatever events follow, a pending sweep timer is still pending or its
request has been sent. -/
theorem run_sweep_timer : ∀ (evs : List Event) (s : State α) (t : Timer) (angle : Nat),
    t.callback = Callback.sweepStep angle →
    (t ∈ s.timers ∨
      ∃ r ∈ s.requests,
        r.caller = Callback.sweepStep angle ∧ r.angle = (angle : Int) ∧ t.due ≤ r.time) →
    (t ∈ (run s evs).timers ∨
      ∃ r ∈ (run s evs).requests,
        r.caller = Callback.sweepStep angle ∧ r.angle = (angle : Int) ∧ t.due ≤ r.time)
  | [], _, _, _, _, h => h
  | ev :: evs, s, t, angle, hcb, h => by
    refine run_sweep_timer evs (step s ev) t angle hcb ?_
    rcases h with h | ⟨r, hr, hrest⟩
    · exact step_sweep_timer s ev t angle hcb h
    · exact Or.inr ⟨r, step_requests_subset s ev r hr, hrest⟩

/-- Every event that comes in time order and does not switch scanning on over a
pending `continuousManualScan` timer keeps the cadence invariant. -/
theorem Cadence_step (s : State α) (ev : Event) (hinv : Cadence s)
    (hord : inTimeOrder s ev = true) (hguard : restartsOverPending s ev = false) :
    Cadence (step s ev) := by
  obtain ⟨hnow, hscan, hlen⟩ := hinv
  cases ev with
  | clickStartScan dt =>
    simp only [inTimeOrder, List.all_eq_true, decide_eq_true_eq] at hord
    cases hsc : s.isScanning with
    | false =>
      have hnone : manualTimers s = [] := by
        simpa [restartsOverPending, hsc, List.isEmpty_iff] using hguard
      have hnone2 : List.filter
          (fun t => decide (t.callback = Callback.continuousManualScan)) s.timers = [] := hnone
      refine ⟨?_, ?_, ?_⟩
      · intro t ht
        simp only [step, toggleScanning, continuousManualScan, setTimeout, updateRadar, hsc,
          Bool.not_false, if_true, List.mem_append, List.mem_singleton] at ht ⊢
        rcases ht with ht | rfl
        · exact hord t ht
        · simp
      · intro _
        simp [step, toggleScanning, continuousManualScan, setTimeout, updateRadar, hsc,
          manualRequests, manualTimers, List.filter_append, hnone2]
      · simp [step, toggleScanning, continuousManualScan, setTimeout, updateRadar, hsc,
          manualTimers, List.filter_append, hnone2]
    | true =>
      refine ⟨?_, ?_, ?_⟩
      · intro t ht
        simp only [step, toggleScanning, hsc, Bool.not_true] at ht ⊢
        exact hord t ht
      · intro h
        simp [step, toggleScanning, hsc] at h
      · simpa [step, toggleScanning, hsc, manualTimers] using hlen
  | clickStartSweep dt =>
    simp only [inTimeOrder, List.all_eq_true, decide_eq_true_eq] at hord
    simp only [step]
    rw [sweepRadar_eq]
    refine ⟨?_, ?_, ?_⟩
    · intro t ht
      simp only [List.mem_append, List.mem_map, List.mem_range] at ht
      rcases ht with ht | ⟨N, _, rfl⟩
      · exact hord t ht
      · simp
    · intro h
      obtain ⟨r, hr, ht⟩ := hscan h
      refine ⟨r, hr, ?_⟩
      have ht2 : List.filter
          (fun t => decide (t.callback = Callback.continuousManualScan)) s.timers
          = [{ due := r.time + 1000, callback := Callback.continuousManualScan }] := ht
      simp [manualTimers, List.filter_append, ht2, List.range, List.range.loop]
    · have hlen2 : (List.filter
          (fun t => decide (t.callback = Callback.continuousManualScan)) s.timers).length
          ≤ 1 := hlen
      simpa [manualTimers, List.filter_append, List.range, List.range.loop] using hlen2
  | timerFires =>
    simp only [step, fireNext]
    cases hn : nextTimer s.timers with
    | none => exact ⟨hnow, hscan, hlen⟩
    | some t =>
      have hmem := nextTimer_mem _ _ hn
      have hmin := nextTimer_le _ _ hn
      have hmax : max s.now t.due = t.due := max_eq_right (hnow t hmem)
      have herase : ∀ u ∈ s.timers.erase t, t.due ≤ u.due :=
        fun u hu => hmin u (List.mem_of_mem_erase hu)
      simp only [hmax]
      cases hcb : t.callback with
      | sweepStep angle =>
        have hnot : t ∉ manualTimers s := by
          simp [manualTimers, hcb]
        have hsame : manualTimers { s with now := t.due, timers := s.timers.erase t }
            = manualTimers s := by
          rw [manualTimers_erase, List.erase_of_not_mem hnot]
        refine ⟨herase, ?_, ?_⟩
        · intro h
          obtain ⟨r, hr, ht⟩ := hscan h
          refine ⟨r, ?_, ?_⟩
          · simpa [runCallback, updateRadar, manualRequests, List.filter_append] using hr
          · rw [← ht, ← hsame]
            rfl
        · have := hsame
          simp only [runCallback, updateRadar, manualTimers] at this ⊢
          rw [this]
          exact hlen
      | continuousManualScan =>
        have hin : t ∈ manualTimers s := by
          simp [manualTimers, hcb, hmem]
        have hsingle : manualTimers s = [t] := by
          cases hm : manualTimers s with
          | nil => simp [hm] at hin
          | cons a l =>
            cases l with
            | nil =>
              simp only [hm, List.mem_singleton] at hin
              rw [hin]
            | cons b l => simp [hm] at hlen
        have hgone : manualTimers { s with now := t.due, timers := s.timers.erase t } = [] := by
          rw [manualTimers_erase, hsingle]
          simp
        have hgone2 : List.filter
            (fun u => decide (u.callback = Callback.continuousManualScan)) (s.timers.erase t)
            = [] := hgone
        cases hsc : s.isScanning with
        | false =>
          refine ⟨?_, ?_, ?_⟩
          · simpa [runCallback, continuousManualScan, hsc] using herase
          · intro h
            simp [runCallback, continuousManualScan, hsc] at h
          · simp [runCallback, continuousManualScan, hsc, manualTimers, hgone2]
        | true =>
          refine ⟨?_, ?_, ?_⟩
          · intro u hu
            simp only [runCallback, continuousManualScan, setTimeout, updateRadar, hsc, if_true,
              List.mem_append, List.mem_singleton] at hu ⊢
            rcases hu with hu | rfl
            · exact herase u hu
            · simp
          · intro _
            simp [runCallback, continuousManualScan, setTimeout, updateRadar, hsc,
              manualRequests, manualTimers, List.filter_append, hgone2]
          · simp [runCallback, continuousManualScan, setTimeout, updateRadar, hsc,
              manualTimers, List.filter_append, hgone2]

/-- The cadence invariant holds along every sequence of events that come in
time order and never switch scanning on over a pending timer. -/
theorem Cadence_run : ∀ (evs : List Event) (s : State α), Cadence s →
    timeOrdered s evs = true → noRestartOverPending s evs = true → Cadence (run s evs)
  | [], _, hinv, _, _ => hinv
  | ev :: evs, s, hinv, hord, hguard => by
    simp only [timeOrdered, Bool.and_eq_true] at hord
    simp only [noRestartOverPending, Bool.and_eq_true, Bool.not_eq_true'] at hguard
    exact Cadence_run evs (step s ev) (Cadence_step s ev hinv hord.1 hguard.1) hord.2 hguard.2

end PageLemmas

/-! ## Sweep (C3, C9) -/

/-- C3: `sweepRadar` schedules exactly 13 timers and changes nothing else: for
`N = 0, ..., 12`, in this order, one timer due `N * 1000` ms after the call
whose callback holds the angle `15 * N`; that callback calls `updateRadar` with
its own angle. When no other timer is pending, the 13 firings send the requests
for the angles 0, 15, ..., 180 in this order, request `N` at `N * 1000` ms after
the call, and leave no timer pending. -/
theorem C3_sweep_schedule {α : Type} (s : State α) :
    sweepRadar s =
      { s with timers := s.timers ++
          (List.range 13).map fun N =>
            { due := s.now + N * 1000, callback := Callback.sweepStep (15 * N) } } ∧
    ((sweepRadar s).timers.length = s.timers.length + 13) ∧
    (∀ (t : State α) (angle : Nat),
      runCallback t (Callback.sweepStep angle)
        = updateRadar t angle (Callback.sweepStep angle)) ∧
    (s.timers = [] →
      (run (sweepRadar s) (List.replicate 13 Event.timerFires)).requests
        = s.requests ++ (List.range 13).map (fun N =>
            ({ time := s.now + N * 1000, angle := ((15 * N : Nat) : Int),
               max_range := s.maxDetectionDistance,
               caller := Callback.sweepStep (15 * N) } : Request)) ∧
      (run (sweepRadar s) (List.replicate 13 Event.timerFires)).timers = []) := by
  refine ⟨sweepRadar_eq s, ?_, fun _ _ => rfl, ?_⟩
  · rw [sweepRadar_eq]; simp
  · intro h
    rw [sweepRadar_eq]
    simp [h, run, step, fireNext, nextTimer, runCallback, updateRadar, List.range,
      List.range.loop, List.replicate]

/-- C3 after page load: the 13 firings send the 13 requests, one per second. -/
theorem C3_sweep_schedule_witness :
    (pageLoad 80 90 "Start Scan" "" : State ℚ).timers = [] ∧
    (run (sweepRadar (pageLoad 80 90 "Start Scan" "" : State ℚ))
        (List.replicate 13 Event.timerFires)).requests
      = (pageLoad 80 90 "Start Scan" "" : State ℚ).requests ++
          (List.range 13).map (fun N =>
            ({ time := (pageLoad 80 90 "Start Scan" "" : State ℚ).now + N * 1000,
               angle := ((15 * N : Nat) : Int),
               max_range := (pageLoad 80 90 "Start Scan" "" : State ℚ).maxDetectionDistance,
               caller := Callback.sweepStep (15 * N) } : Request)) :=
  ⟨rfl, ((C3_sweep_schedule (pageLoad 80 90 "Start Scan" "" : State ℚ)).2.2.2 rfl).1⟩

/-- C9: `sweepRadar` leaves `isScanning` and `maxDetectionDistance` unchanged
and keeps every pending timer, so the pending `continuousManualScan` timers are
the same after it. A sweep callback that fires sends its request whatever
`isScanning` is at that moment, and `toggleScanning` removes no pending timer.
So after any sequence of clicks and timer firings that follows the sweep, each
of the 13 sweep callbacks is still pending or has sent the request for its
angle, no earlier than its due time. -/
theorem C9_sweep_orthogonal {α : Type} (s : State α) :
    (sweepRadar s).isScanning = s.isScanning ∧
    (sweepRadar s).maxDetectionDistance = s.maxDetectionDistance ∧
    (∀ t ∈ s.timers, t ∈ (sweepRadar s).timers) ∧
    manualTimers (sweepRadar s) = manualTimers s ∧
    (∀ (t : State α) (angle : Nat),
      (runCallback t (Callback.sweepStep angle)).requests
        = t.requests ++ [{ time := t.now, angle := (angle : Int),
                           max_range := t.maxDetectionDistance,
                           caller := Callback.sweepStep angle }]) ∧
    (∀ (t : State α), ∀ x ∈ t.timers, x ∈ (toggleScanning t).timers) ∧
    (∀ (evs : List Event) (N : Nat), N < 13 →
      ({ due := s.now + N * 1000, callback := Callback.sweepStep (15 * N) } : Timer)
          ∈ (run (sweepRadar s) evs).timers ∨
        ∃ r ∈ (run (sweepRadar s) evs).requests,
          r.caller = Callback.sweepStep (15 * N) ∧ r.angle = ((15 * N : Nat) : Int) ∧
            s.now + N * 1000 ≤ r.time) := by
  refine ⟨?_, ?_, ?_, ?_, fun _ _ => rfl, toggleScanning_timers_subset, ?_⟩
  · rw [sweepRadar_eq]
  · rw [sweepRadar_eq]
  · intro t ht
    rw [sweepRadar_eq]
    exact List.mem_append_left _ ht
  · rw [sweepRadar_eq]
    simp [manualTimers, List.filter_append, List.range, List.range.loop]
  · intro evs N hN
    refine run_sweep_timer evs (sweepRadar s) _ (15 * N) rfl (Or.inl ?_)
    rw [sweepRadar_eq]
    exact List.mem_append_right _ (List.mem_map.mpr ⟨N, List.mem_range.mpr hN, rfl⟩)

/-! ## Toggling the manual scan (C4) -/

/-- C4, as stated, fails: after page load (angle field 90), two clicks on
`#startScan` in a row leave `isScanning = false`, but the first one has sent a
scan request. -/
theorem C4_counterexample :
    (pageLoad 80 90 "Start Scan" "" : State ℚ).isScanning = false ∧
    (pageLoad 80 90 "Start Scan" "" : State ℚ).timers = [] ∧
    (toggleScanning (toggleScanning (pageLoad 80 90 "Start Scan" "" : State ℚ))).isScanning
      = false ∧
    (toggleScanning (toggleScanning (pageLoad 80 90 "Start Scan" "" : State ℚ))).requests
      = [{ time := 0, angle := 90, max_range := 80,
           caller := Callback.continuousManualScan }] ∧
    (toggleScanning (toggleScanning (pageLoad 80 90 "Start Scan" "" : State ℚ))).requests
      ≠ [] := by
  refine ⟨rfl, rfl, rfl, rfl, ?_⟩
  simp [toggleScanning, continuousManualScan, setTimeout, updateRadar, pageLoad]

/-- C4, amended: from a state with `isScanning = false` and no pending timer,
two calls of `toggleScanning` with no timer firing in between leave
`isScanning = false` and send exactly one scan request, which the first call
sends at once (for the angle in the input field, with the current
`maxDetectionDistance`); the one timer they leave pending sends no request and
schedules nothing when it fires later. -/
theorem C4_toggle_twice {α : Type} (s : State α) (dt1 dt2 : Nat)
    (hidle : s.isScanning = false) (htimers : s.timers = []) :
    (run s [Event.clickStartScan dt1]).requests
      = s.requests ++ [{ time := s.now + dt1, angle := s.inputAngle,
                         max_range := s.maxDetectionDistance,
                         caller := Callback.continuousManualScan }] ∧
    (run s [Event.clickStartScan dt1, Event.clickStartScan dt2]).isScanning = false ∧
    (run s [Event.clickStartScan dt1, Event.clickStartScan dt2]).requests
      = s.requests ++ [{ time := s.now + dt1, angle := s.inputAngle,
                         max_range := s.maxDetectionDistance,
                         caller := Callback.continuousManualScan }] ∧
    (run s [Event.clickStartScan dt1, Event.clickStartScan dt2]).timers
      = [{ due := s.now + dt1 + 1000, callback := Callback.continuousManualScan }] ∧
    (run s [Event.clickStartScan dt1, Event.clickStartScan dt2, Event.timerFires]).requests
      = (run s [Event.clickStartScan dt1, Event.clickStartScan dt2]).requests ∧
    (run s [Event.clickStartScan dt1, Event.clickStartScan dt2, Event.timerFires]).timers
      = [] ∧
    (run s [Event.clickStartScan dt1, Event.clickStartScan dt2, Event.timerFires]).isScanning
      = false := by
  simp [run, step, toggleScanning, continuousManualScan, setTimeout, updateRadar, fireNext,
    nextTimer, runCallback, hidle, htimers]

/-- C4, amended, after page load with the two clicks 100 ms apart. -/
theorem C4_toggle_twice_witness :
    (pageLoad 80 90 "Start Scan" "" : State ℚ).isScanning = false ∧
    (pageLoad 80 90 "Start Scan" "" : State ℚ).timers = [] ∧
    (run (pageLoad 80 90 "Start Scan" "" : State ℚ)
        [Event.clickStartScan 0, Event.clickStartScan 100]).isScanning = false :=
  ⟨rfl, rfl, (C4_toggle_twice (pageLoad 80 90 "Start Scan" "" : State ℚ) 0 100 rfl rfl).2.1⟩

/-! ## Responses (C6, C7) -/

/-- C6, as stated, fails: after page load on a 200 x 200 canvas, the reading
`{distance: 40, angle: 90}` puts a detected point on the canvas; when the next
response has the distance `'Error'`, the status becomes the error text but the
canvas still shows that detected point. -/
theorem C6_counterexample :
    (updateRadar_success (⟨Real.pi, Real.cos, Real.sin⟩ : JsMath ℝ) ⟨200, 200⟩
        (updateRadar_success (⟨Real.pi, Real.cos, Real.sin⟩ : JsMath ℝ) ⟨200, 200⟩
          (pageLoad 80 90 "Start Scan" "") 90 ⟨Distance.num 40, 90⟩)
        90 ⟨Distance.error, 90⟩).status = "Error in scanning at angle 90" ∧
    ∃ op ∈ shown (⟨200, 200⟩ : RadarCanvas ℝ)
        (updateRadar_success (⟨Real.pi, Real.cos, Real.sin⟩ : JsMath ℝ) ⟨200, 200⟩
          (updateRadar_success (⟨Real.pi, Real.cos, Real.sin⟩ : JsMath ℝ) ⟨200, 200⟩
            (pageLoad 80 90 "Start Scan" "") 90 ⟨Distance.num 40, 90⟩)
          90 ⟨Distance.error, 90⟩).ctx,
      isDetectedPoint op = true := by
  refine ⟨by simp [updateRadar_success]; rfl, ?_⟩
  simp only [updateRadar_success, pageLoad]
  rw [shown_drawRadar_in_range _ _ _ _ _ _ (by norm_num)]
  exact ⟨_, List.mem_append_right _ (List.mem_singleton_self _), rfl⟩

/-- C6, amended: for every state and every request angle `a`, when the success
callback of `updateRadar(a)` handles a response whose distance is `'Error'`, it
sets the status text to `Error in scanning at angle a` and changes nothing else:
the canvas is not repainted and shows what it showed before (a detected point
from an earlier reading included), and no request is sent and no timer
scheduled. -/
theorem C6_sensor_error {α : Type} [LinearOrderedField α] (M : JsMath α)
    (radarCanvas : RadarCanvas α) (s : State α) (a : Int) (angle : α) :
    updateRadar_success M radarCanvas s a ⟨Distance.error, angle⟩
      = { s with status := "Error in scanning at angle " ++ toString a } ∧
    (updateRadar_success M radarCanvas s a ⟨Distance.error, angle⟩).status
      = "Error in scanning at angle " ++ toString a ∧
    (updateRadar_success M radarCanvas s a ⟨Distance.error, angle⟩).ctx = s.ctx ∧
    shown radarCanvas (updateRadar_success M radarCanvas s a ⟨Distance.error, angle⟩).ctx
      = shown radarCanvas s.ctx ∧
    (updateRadar_success M radarCanvas s a ⟨Distance.error, angle⟩).requests = s.requests ∧
    (updateRadar_success M radarCanvas s a ⟨Distance.error, angle⟩).timers = s.timers :=
  ⟨rfl, rfl, rfl, rfl, rfl, rfl⟩

/-- C7: for every state, the error callback of `updateRadar` sets the status
text to 'Scan failed. Retrying...' and changes nothing else: no request is sent,
no timer scheduled, nothing painted, and `isScanning` and
`maxDetectionDistance` keep their values. The success callback sends no request
and schedules no timer either, so a transport failure leaves the same requests
and timers as any response would. -/
theorem C7_transport_failure {α : Type} [LinearOrderedField α] (M : JsMath α)
    (radarCanvas : RadarCanvas α) (s : State α) (a : Int) (data : ScanData α) :
    updateRadar_error s = { s with status := "Scan failed. Retrying..." } ∧
    (updateRadar_error s).status = "Scan failed. Retrying..." ∧
    (updateRadar_error s).requests = s.requests ∧
    (updateRadar_error s).timers = s.timers ∧
    (updateRadar_error s).ctx = s.ctx ∧
    (updateRadar_error s).isScanning = s.isScanning ∧
    (updateRadar_error s).maxDetectionDistance = s.maxDetectionDistance ∧
    (updateRadar_success M radarCanvas s a data).requests = (updateRadar_error s).requests ∧
    (updateRadar_success M radarCanvas s a data).timers = (updateRadar_error s).timers := by
  refine ⟨rfl, rfl, rfl, rfl, rfl, rfl, rfl, ?_, ?_⟩ <;>
    (unfold updateRadar_success updateRadar_error; cases data.distance <;> rfl)

/-! ## Setting the range (C8) -/

/-- C8, as stated, fails: after page load on a 200 x 200 canvas with 40 typed
into the range field, the `#setMaxRange` click handler changes
`maxDetectionDistance` from 80 to 40 and leaves on the canvas the black fill and
the green circle only. No compass marker is in that frame, so it is not the
frame of background and compass markers that `drawRadar` paints. -/
theorem C8_counterexample :
    (pageLoad 40 90 "Start Scan" "" : State ℝ).maxDetectionDistance = 80 ∧
    (setMaxRange_click (⟨Real.pi, Real.cos, Real.sin⟩ : JsMath ℝ) ⟨200, 200⟩
        (pageLoad 40 90 "Start Scan" "")).maxDetectionDistance = 40 ∧
    shown (⟨200, 200⟩ : RadarCanvas ℝ)
        (setMaxRange_click (⟨Real.pi, Real.cos, Real.sin⟩ : JsMath ℝ) ⟨200, 200⟩
          (pageLoad 40 90 "Start Scan" "")).ctx
      = [DrawOp.fillRect "black" 0 0 200 200,
         DrawOp.strokeArc "green" 100 100 100 0 (2 * Real.pi)] ∧
    (∀ op ∈ shown (⟨200, 200⟩ : RadarCanvas ℝ)
        (setMaxRange_click (⟨Real.pi, Real.cos, Real.sin⟩ : JsMath ℝ) ⟨200, 200⟩
          (pageLoad 40 90 "Start Scan" "")).ctx,
      isOrientationMark op = false) ∧
    shown (⟨200, 200⟩ : RadarCanvas ℝ)
        (setMaxRange_click (⟨Real.pi, Real.cos, Real.sin⟩ : JsMath ℝ) ⟨200, 200⟩
          (pageLoad 40 90 "Start Scan" "")).ctx
      ≠ drawOrientationPoints (⟨Real.pi, Real.cos, Real.sin⟩ : JsMath ℝ) ⟨200, 200⟩
          (drawRadarBackground (⟨Real.pi, Real.cos, Real.sin⟩ : JsMath ℝ) ⟨200, 200⟩ []) := by
  have hshown : shown (⟨200, 200⟩ : RadarCanvas ℝ)
        (setMaxRange_click (⟨Real.pi, Real.cos, Real.sin⟩ : JsMath ℝ) ⟨200, 200⟩
          (pageLoad 40 90 "Start Scan" "")).ctx
      = [DrawOp.fillRect "black" 0 0 200 200,
         DrawOp.strokeArc "green" 100 100 100 0 (2 * Real.pi)] := by
    simp only [setMaxRange_click, shown_drawRadarBackground]
    norm_num [drawRadarBackground, center, radius]
  refine ⟨rfl, rfl, hshown, ?_, ?_⟩
  · rw [hshown]
    simp [isOrientationMark]
  · rw [hshown]
    intro h
    have hlen := congrArg List.length h
    simp [drawOrientationPoints_eq, drawRadarBackground, orientationPoints] at hlen

/-- C8, amended: for every state and every entered integer `n`, the
`#setMaxRange` click handler replaces `maxDetectionDistance` by `n`, leaves
`isScanning` unchanged, sends no request and schedules no timer, and the frame
it leaves on the canvas consists of the background only (the black fill and the
green circle), with no compass marker and no detected point. -/
theorem C8_set_max_range {α : Type} [LinearOrderedField α] (M : JsMath α)
    (radarCanvas : RadarCanvas α) (s : State α) (n : Int) (hn : s.inputMaxRange = n) :
    (setMaxRange_click M radarCanvas s).maxDetectionDistance = n ∧
    (setMaxRange_click M radarCanvas s).isScanning = s.isScanning ∧
    (setMaxRange_click M radarCanvas s).requests = s.requests ∧
    (setMaxRange_click M radarCanvas s).timers = s.timers ∧
    (setMaxRange_click M radarCanvas s).ctx = drawRadarBackground M radarCanvas s.ctx ∧
    shown radarCanvas (setMaxRange_click M radarCanvas s).ctx
      = [DrawOp.fillRect "black" 0 0 radarCanvas.width radarCanvas.height,
         DrawOp.strokeArc "green" (center radarCanvas).x (center radarCanvas).y
           (radius radarCanvas) 0 (2 * M.PI)] ∧
    (∀ op ∈ shown radarCanvas (setMaxRange_click M radarCanvas s).ctx,
      isOrientationMark op = false ∧ isDetectedPoint op = false) := by
  have hshown : shown radarCanvas (setMaxRange_click M radarCanvas s).ctx
      = [DrawOp.fillRect "black" 0 0 radarCanvas.width radarCanvas.height,
         DrawOp.strokeArc "green" (center radarCanvas).x (center radarCanvas).y
           (radius radarCanvas) 0 (2 * M.PI)] := by
    simp only [setMaxRange_click, shown_drawRadarBackground]
    simp [drawRadarBackground]
  refine ⟨hn, rfl, rfl, rfl, rfl, hshown, ?_⟩
  rw [hshown]
  simp [isOrientationMark, isDetectedPoint]

/-- C8, amended, for the change from 80 to 40 after page load. -/
theorem C8_set_max_range_witness :
    (pageLoad 40 90 "Start Scan" "" : State ℝ).inputMaxRange = 40 ∧
    (setMaxRange_click (⟨Real.pi, Real.cos, Real.sin⟩ : JsMath ℝ) ⟨200, 200⟩
        (pageLoad 40 90 "Start Scan" "")).maxDetectionDistance = 40 :=
  ⟨rfl, (C8_set_max_range ⟨Real.pi, Real.cos, Real.sin⟩ ⟨200, 200⟩
    (pageLoad 40 90 "Start Scan" "") 40 rfl).1⟩

/-! ## Cadence of the manual scan (C5) -/

/-- C5, as stated, fails: after page load, the operator clicks `#startScan` at
0 ms (on), at 100 ms (off) and at 200 ms (on again), and then two timers fire.
The events come in time order. After the third click `isScanning` is true and
two `continuousManualScan` timers are pending (due at 1000 and at 1200), and
`isScanning` stays true from then on; the requests of `continuousManualScan`
go out at 0, 200, 1000 and 1200 ms, so in the scanning period that starts at
200 ms consecutive requests are 800 ms and 200 ms apart. -/
theorem C5_counterexample :
    timeOrdered (pageLoad 80 90 "Start Scan" "" : State ℚ)
      [Event.clickStartScan 0, Event.clickStartScan 100, Event.clickStartScan 100,
       Event.timerFires, Event.timerFires] = true ∧
    (run (pageLoad 80 90 "Start Scan" "" : State ℚ)
      [Event.clickStartScan 0, Event.clickStartScan 100,
       Event.clickStartScan 100]).isScanning = true ∧
    manualTimers (run (pageLoad 80 90 "Start Scan" "" : State ℚ)
      [Event.clickStartScan 0, Event.clickStartScan 100, Event.clickStartScan 100])
      = [{ due := 1000, callback := Callback.continuousManualScan },
         { due := 1200, callback := Callback.continuousManualScan }] ∧
    (run (pageLoad 80 90 "Start Scan" "" : State ℚ)
      [Event.clickStartScan 0, Event.clickStartScan 100, Event.clickStartScan 100,
       Event.timerFires]).isScanning = true ∧
    (run (pageLoad 80 90 "Start Scan" "" : State ℚ)
      [Event.clickStartScan 0, Event.clickStartScan 100, Event.clickStartScan 100,
       Event.timerFires, Event.timerFires]).isScanning = true ∧
    (manualRequests (run (pageLoad 80 90 "Start Scan" "" : State ℚ)
      [Event.clickStartScan 0, Event.clickStartScan 100, Event.clickStartScan 100,
       Event.timerFires, Event.timerFires])).map (fun r => r.time)
      = [0, 200, 1000, 1200] := by
  refine ⟨by decide, by decide, by decide, by decide, by decide, by decide⟩

/-- C5, amended: for every sequence of `#startScan` clicks, `#startSweep` clicks
and timer firings that starts with `isScanning = false` and no pending timer,
comes in time order, and never switches scanning on while a
`continuousManualScan` timer of an earlier scan is still pending, there is never
more than one pending `continuousManualScan` timer. While `isScanning` is true
exactly one is pending, due 1000 ms after the latest request of
`continuousManualScan`, and when it is the next timer to fire, its request goes
out exactly 1000 ms after that latest request. -/
theorem C5_manual_cadence {α : Type} (s0 : State α) (evs : List Event)
    (hidle : s0.isScanning = false) (htimers : s0.timers = [])
    (hord : timeOrdered s0 evs = true) (hguard : noRestartOverPending s0 evs = true) :
    (manualTimers (run s0 evs)).length ≤ 1 ∧
    ((run s0 evs).isScanning = true →
      ∃ r, (manualRequests (run s0 evs)).getLast? = some r ∧
        manualTimers (run s0 evs)
          = [{ due := r.time + 1000, callback := Callback.continuousManualScan }] ∧
        ∀ t, nextTimer (run s0 evs).timers = some t →
          t.callback = Callback.continuousManualScan →
          manualRequests (run s0 (evs ++ [Event.timerFires]))
            = manualRequests (run s0 evs) ++
                [{ time := r.time + 1000, angle := (run s0 evs).inputAngle,
                   max_range := (run s0 evs).maxDetectionDistance,
                   caller := Callback.continuousManualScan }]) := by
  have hinit : Cadence s0 := by
    refine ⟨by simp [htimers], by simp [hidle], by simp [manualTimers, htimers]⟩
  obtain ⟨hnow, hscan, hlen⟩ := Cadence_run evs s0 hinit hord hguard
  refine ⟨hlen, fun h => ?_⟩
  obtain ⟨r, hr, ht⟩ := hscan h
  refine ⟨r, hr, ht, fun t hn hcb => ?_⟩
  have hmem : t ∈ manualTimers (run s0 evs) := by
    simp [manualTimers, hcb, nextTimer_mem _ _ hn]
  rw [ht, List.mem_singleton] at hmem
  have hdue : t.due = r.time + 1000 := by rw [hmem]
  have hmax : max (run s0 evs).now t.due = t.due :=
    max_eq_right (hnow t (nextTimer_mem _ _ hn))
  have hrun : run s0 (evs ++ [Event.timerFires]) = fireNext (run s0 evs) := by
    simp [run, List.foldl_append, step]
  rw [hrun]
  generalize run s0 evs = s at *
  simp [fireNext, hn, hcb, runCallback, continuousManualScan, setTimeout, updateRadar,
    manualRequests, List.filter_append, hmax, hdue, h]
  rw [← hdue]
  exact hnow t (nextTimer_mem _ _ hn)

/-- C5, amended, on a run after page load: on at 0 ms, two firings, off at
2500 ms, the last timer fires, on again at 3010 ms. -/
theorem C5_manual_cadence_witness :
    (pageLoad 80 90 "Start Scan" "" : State ℚ).isScanning = false ∧
    (pageLoad 80 90 "Start Scan" "" : State ℚ).timers = [] ∧
    timeOrdered (pageLoad 80 90 "Start Scan" "" : State ℚ)
      [Event.clickStartScan 0, Event.timerFires, Event.timerFires, Event.clickStartScan 500,
       Event.timerFires, Event.clickStartScan 10] = true ∧
    noRestartOverPending (pageLoad 80 90 "Start Scan" "" : State ℚ)
      [Event.clickStartScan 0, Event.timerFires, Event.timerFires, Event.clickStartScan 500,
       Event.timerFires, Event.clickStartScan 10] = true ∧
    (manualTimers (run (pageLoad 80 90 "Start Scan" "" : State ℚ)
      [Event.clickStartScan 0, Event.timerFires, Event.timerFires, Event.clickStartScan 500,
       Event.timerFires, Event.clickStartScan 10])).length ≤ 1 :=
  ⟨rfl, rfl, by decide, by decide,
   (C5_manual_cadence (pageLoad 80 90 "Start Scan" "" : State ℚ)
      [Event.clickStartScan 0, Event.timerFires, Event.timerFires, Event.clickStartScan 500,
       Event.timerFires, Event.clickStartScan 10] rfl rfl (by decide) (by decide)).1⟩

end Radar
